import Mathlib

/-!
Verification development for the go-yt-radio-server repository.

The repository is a live transcoding relay: an HTTP handler validates a
YouTube / YouTube Music URL, launches an extractor process and a transcoder
process connected by a pipe, and relays the transcoder output to the client
in 64 KiB chunks. The definitions below are a shallow embedding of the Go
source: the validator `isYouTubeURL`, the argument lists built for the two
child processes, the setup phase of `streamHandler` (pipe creation, process
starts, error responses), the relay loop, the cancellation watcher, and the
45-second request context.
-/

/-! ## Model of Go net/url: Parse followed by Hostname

`isYouTubeURL` in the source calls `url.Parse(u)` and then
`parsed.Hostname()`. The functions below model that composition for the URL
shapes the server handles. Modelled behavior, following net/url: the
fragment is cut at the first `#` before anything else; a URL containing an
ASCII control character is a parse error; a leading `scheme:` is stripped
when the part before the first `:` is a nonempty run of scheme characters
starting with a letter (a string starting with `:` is a parse error); the
query is cut at the first `?`; an authority is present only when the
remainder starts with `//` (and, when no scheme was found, does not start
with `///`); the host is the part of the authority after the last `@` and
before the first `/`; a host of the form `h:p` is an error unless `p` is all
digits, in which case Hostname is `h`; a bracketed `[h]:p` host yields `h`;
when there is no authority the host is empty, except that a scheme-less URL
whose first path segment contains `:` is a parse error. Hosts are not
case-normalized, matching net/url, which leaves the host as written.
Percent-escapes in the host and userinfo validation are not modelled; no
claim below depends on them.
-/

/-- Split a list at the first occurrence of `sep`: returns the part before
and the part after, or `none` when `sep` does not occur. -/
def splitAtChar (sep : Char) : List Char → Option (List Char × List Char)
  | [] => none
  | c :: cs =>
    if c == sep then some ([], cs)
    else
      match splitAtChar sep cs with
      | none => none
      | some (a, b) => some (c :: a, b)

/-- The part of `s` before the first occurrence of `sep`, or all of `s`. -/
def cutBefore (sep : Char) (s : List Char) : List Char :=
  match splitAtChar sep s with
  | none => s
  | some (a, _) => a

/-- Split a list at the last occurrence of `sep`. -/
def splitAtLastChar (sep : Char) (s : List Char) : Option (List Char × List Char) :=
  match splitAtChar sep s.reverse with
  | none => none
  | some (a, b) => some (b.reverse, a.reverse)

/-- ASCII control characters, which make net/url Parse fail. -/
def containsCTL (s : List Char) : Bool :=
  s.any fun c => c.toNat < 0x20 || c.toNat == 0x7f

/-- Characters allowed after the first character of a URL scheme. -/
def isSchemeTailChar (c : Char) : Bool :=
  c.isAlpha || c.isDigit || c == '+' || c == '-' || c == '.'

/-- Strip a leading `scheme:` as net/url getScheme does. Returns
`some (hasScheme, rest)`, or `none` for the missing-scheme error (input
starting with `:`). When the text before the first `:` is not a valid
scheme, the whole input is kept and `hasScheme` is `false`. -/
def stripScheme (s : List Char) : Option (Bool × List Char) :=
  match splitAtChar ':' s with
  | none => some (false, s)
  | some ([], _) => none
  | some (c :: cs, post) =>
    if c.isAlpha && cs.all isSchemeTailChar then some (true, post)
    else some (false, s)

/-- Characters net/url accepts unescaped inside a host component. -/
def validHostChar (c : Char) : Bool :=
  c.isAlpha || c.isDigit ||
  c == '-' || c == '.' || c == '_' || c == '~' ||
  c == '!' || c == '$' || c == '&' || c == '\x27' || c == '(' || c == ')' ||
  c == '*' || c == '+' || c == ',' || c == ';' || c == '=' ||
  c == ':' || c == '[' || c == ']' || c == '<' || c == '>' || c == '"' ||
  c.toNat ≥ 0x80

/-- A valid optional port: the digits after the colon, possibly empty. -/
def validOptPort (p : List Char) : Bool := p.all Char.isDigit

def startsWithColon : List Char → Bool
  | ':' :: _ => true
  | _ => false

def startsWithSlash : List Char → Bool
  | '/' :: _ => true
  | _ => false

def startsWithSlashSlash : List Char → Bool
  | '/' :: '/' :: _ => true
  | _ => false

def startsWithTripleSlash : List Char → Bool
  | '/' :: '/' :: '/' :: _ => true
  | _ => false

/-- net/url parseHost followed by Hostname: validate the host-and-port part
of the authority and return the hostname with any port stripped. -/
def parseHostPart (host : List Char) : Option (List Char) :=
  match host with
  | '[' :: rest =>
    (match splitAtLastChar ']' rest with
     | none => none
     | some (inside, after) =>
       if (after.isEmpty || (startsWithColon after && validOptPort (after.drop 1)))
           && inside.all validHostChar then
         some inside
       else none)
  | _ =>
    match splitAtLastChar ':' host with
    | none => if host.all validHostChar then some host else none
    | some (h, p) =>
      if validOptPort p && h.all validHostChar then some h else none

/-- Model of `url.Parse(u)` followed by `.Hostname()`: `none` is a parse
error (the source then rejects), `some h` is the extracted hostname. -/
def goParseHostname (s : String) : Option String :=
  let cs := cutBefore '#' s.data
  if containsCTL cs then none
  else
    match stripScheme cs with
    | none => none
    | some (hasScheme, rest0) =>
      let rest := cutBefore '?' rest0
      if startsWithSlashSlash rest && (hasScheme || !startsWithTripleSlash rest) then
        let authority := cutBefore '/' (rest.drop 2)
        let hostPart :=
          match splitAtLastChar '@' authority with
          | none => authority
          | some (_, h) => h
        (parseHostPart hostPart).map String.mk
      else if !hasScheme && !startsWithSlash rest && (cutBefore '/' rest).contains ':' then
        none
      else some ""

/-- The validator, from `isYouTubeURL` in main.go (and its identical copies
in the other variants): parse the URL, reject on parse error, otherwise
accept exactly the four allow-listed hosts, compared for exact equality. -/
def isYouTubeURL (u : String) : Bool :=
  match goParseHostname u with
  | none => false
  | some host =>
    host == "youtube.com" || host == "www.youtube.com" ||
    host == "youtu.be" || host == "music.youtube.com"

example : isYouTubeURL "https://youtu.be/abc123" = true := by decide
example : isYouTubeURL "https://youtube.com/watch?v=x" = true := by decide
example : isYouTubeURL "https://www.youtube.com/watch?v=x" = true := by decide
example : isYouTubeURL "https://music.youtube.com/watch?v=x" = true := by decide
example : isYouTubeURL "" = false := by decide
example : isYouTubeURL "https://evil.example/abc123" = false := by decide
example : isYouTubeURL "https://youtube.com.evil.example/x" = false := by decide
example : isYouTubeURL "https://youtube.com:8080/x" = true := by decide
example : goParseHostname "https://user@youtu.be/x" = some "youtu.be" := by decide

/-! ## The setup phase of streamHandler (main.go)

`streamHandler` in main.go validates the query parameter, sets the
streaming headers, creates the yt-dlp stdout pipe, starts yt-dlp, creates
the ffmpeg stdout pipe, and starts ffmpeg. Each failure sends an error
response with `http.Error`; the two failures after yt-dlp has started also
kill the yt-dlp process first. The model records this phase as a list of
events in program order. `SetupEnv` carries the success or failure of the
four fallible operating-system calls, which the handler only observes
through their returned errors. `Ev.streamBegun` marks entry into the relay
loop; the first body write then commits status 200.
-/

inductive Proc where
  | extractor
  | transcoder
deriving DecidableEq

inductive Ev where
  | headerSet (k v : String)
  | started (p : Proc)
  | killed (p : Proc)
  | httpError (status : Nat)
  | streamBegun
deriving DecidableEq

structure SetupEnv where
  ytdlpPipeOk : Bool
  ytdlpStartOk : Bool
  ffmpegPipeOk : Bool
  ffmpegStartOk : Bool
deriving DecidableEq

/-- Event trace of the setup phase of `streamHandler` (main.go lines
12-94), from the `?url=` check up to entry into the relay loop. -/
def streamHandlerSetup (urlParam : String) (env : SetupEnv) : List Ev :=
  if urlParam == "" then [Ev.httpError 400]
  else if !(isYouTubeURL urlParam) then [Ev.httpError 400]
  else
    [Ev.headerSet "Content-Type" "audio/mpeg",
     Ev.headerSet "Cache-Control" "no-cache",
     Ev.headerSet "Connection" "keep-alive"] ++
    (if !env.ytdlpPipeOk then [Ev.httpError 500]
     else if !env.ytdlpStartOk then [Ev.httpError 503]
     else Ev.started Proc.extractor ::
       (if !env.ffmpegPipeOk then [Ev.killed Proc.extractor, Ev.httpError 500]
        else if !env.ffmpegStartOk then [Ev.killed Proc.extractor, Ev.httpError 500]
        else [Ev.started Proc.transcoder, Ev.streamBegun]))

def startsProcess : Ev → Bool
  | .started _ => true
  | _ => false

/-- No `started` event occurs in the trace. -/
def noProcessStarted (evs : List Ev) : Bool :=
  evs.all fun e => !startsProcess e

/-- The status of the first error response in the trace, if any. -/
def respondedStatus : List Ev → Option Nat
  | [] => none
  | .httpError s :: _ => some s
  | _ :: rest => respondedStatus rest

def isErrorEv : Ev → Bool
  | .httpError _ => true
  | _ => false

/-- How many error responses the trace contains. -/
def errorCount (evs : List Ev) : Nat :=
  evs.countP fun e => isErrorEv e

/-- The process was started and not subsequently killed. -/
def runningAfter (evs : List Ev) (p : Proc) : Bool :=
  evs.contains (Ev.started p) && !(evs.contains (Ev.killed p))

/-- An environment in which every operating-system call succeeds. -/
def envAllOk : SetupEnv := ⟨true, true, true, true⟩

/-- The environment in which only the transcoder fails to start. -/
def envTranscoderStartFails : SetupEnv := ⟨true, true, true, false⟩

/-- C6: for every input string the validator accepts exactly when the
string parses as a URL whose hostname equals one of youtube.com,
www.youtube.com, youtu.be, music.youtube.com (exact equality); whenever it
rejects — parse failure, empty string, decoy host, any other mismatch —
the handler responds 400 and starts no process. The validator is a pure
total function of the string and touches nothing else. -/
theorem C6_validator_allowlist (u : String) (env : SetupEnv) :
    (isYouTubeURL u = true ↔ ∃ h, goParseHostname u = some h ∧
        (h = "youtube.com" ∨ h = "www.youtube.com" ∨
         h = "youtu.be" ∨ h = "music.youtube.com"))
    ∧ (isYouTubeURL u = false →
        noProcessStarted (streamHandlerSetup u env) = true ∧
        respondedStatus (streamHandlerSetup u env) = some 400) := by
  constructor
  · cases hp : goParseHostname u <;>
      simp [isYouTubeURL, hp, or_assoc]
  · intro hv
    by_cases hu : u = ""
    · subst hu
      simp [streamHandlerSetup, noProcessStarted, startsProcess, respondedStatus]
    · have hu' : (u == "") = false := by
        simpa using hu
      simp [streamHandlerSetup, hu', hv, noProcessStarted, startsProcess, respondedStatus]

/-- Witness for C6 at the decoy host of spec Scenario B: the validator
rejects and the handler starts no process, answering 400. -/
theorem C6_validator_allowlist_witness :
    noProcessStarted (streamHandlerSetup "https://evil.example/abc123" envAllOk) = true ∧
    respondedStatus (streamHandlerSetup "https://evil.example/abc123" envAllOk) = some 400 := by
  have h := (C6_validator_allowlist "https://evil.example/abc123" envAllOk).2 (by decide)
  exact h

/-- C10: host comparison is exact byte equality with no case normalization
and no scheme defaulting: the parsed hostname of https://YouTube.com/x is
the unnormalized YouTube.com and the validator rejects it, while the
all-lowercase spelling is accepted; the scheme-less youtube.com/watch?v=x
parses with an empty hostname and is rejected. -/
theorem C10_exact_host_comparison :
    isYouTubeURL "https://youtube.com/x" = true
    ∧ goParseHostname "https://YouTube.com/x" = some "YouTube.com"
    ∧ isYouTubeURL "https://YouTube.com/x" = false
    ∧ goParseHostname "youtube.com/watch?v=x" = some ""
    ∧ isYouTubeURL "youtube.com/watch?v=x" = false := by
  decide

/-- C1: when ffmpeg fails to start after yt-dlp is already running (pipes
having been created), the handler kills yt-dlp before sending the error
response: the trace ends with started-extractor, killed-extractor, then
the single error response, so neither process of the pair is left running
and exactly one setup-failure outcome is produced. -/
theorem C1_transcoder_start_failure_kills_extractor (u : String) (env : SetupEnv)
    (hv : isYouTubeURL u = true)
    (h1 : env.ytdlpPipeOk = true) (h2 : env.ytdlpStartOk = true)
    (h3 : env.ffmpegPipeOk = true) (h4 : env.ffmpegStartOk = false) :
    streamHandlerSetup u env =
      [Ev.headerSet "Content-Type" "audio/mpeg",
       Ev.headerSet "Cache-Control" "no-cache",
       Ev.headerSet "Connection" "keep-alive",
       Ev.started Proc.extractor, Ev.killed Proc.extractor, Ev.httpError 500]
    ∧ runningAfter (streamHandlerSetup u env) Proc.extractor = false
    ∧ runningAfter (streamHandlerSetup u env) Proc.transcoder = false
    ∧ errorCount (streamHandlerSetup u env) = 1 := by
  have hu : (u == "") = false := by
    rcases eq_or_ne u "" with h | h
    · subst h
      exact absurd hv (by decide)
    · simpa using h
  have htrace : streamHandlerSetup u env =
      [Ev.headerSet "Content-Type" "audio/mpeg",
       Ev.headerSet "Cache-Control" "no-cache",
       Ev.headerSet "Connection" "keep-alive",
       Ev.started Proc.extractor, Ev.killed Proc.extractor, Ev.httpError 500] := by
    simp [streamHandlerSetup, hu, hv, h1, h2, h3, h4]
  refine ⟨htrace, ?_, ?_, ?_⟩ <;> rw [htrace] <;> decide

/-- Witness for C1 at a concrete valid URL with only the ffmpeg start
failing. -/
theorem C1_transcoder_start_failure_kills_extractor_witness :
    streamHandlerSetup "https://youtu.be/abc123" envTranscoderStartFails =
      [Ev.headerSet "Content-Type" "audio/mpeg",
       Ev.headerSet "Cache-Control" "no-cache",
       Ev.headerSet "Connection" "keep-alive",
       Ev.started Proc.extractor, Ev.killed Proc.extractor, Ev.httpError 500]
    ∧ runningAfter (streamHandlerSetup "https://youtu.be/abc123" envTranscoderStartFails)
        Proc.extractor = false
    ∧ runningAfter (streamHandlerSetup "https://youtu.be/abc123" envTranscoderStartFails)
        Proc.transcoder = false
    ∧ errorCount (streamHandlerSetup "https://youtu.be/abc123" envTranscoderStartFails) = 1 :=
  C1_transcoder_start_failure_kills_extractor "https://youtu.be/abc123"
    envTranscoderStartFails (by decide) rfl rfl rfl rfl

/-! ## The relay loop

Each iteration of the relay loop reads into a 64 KiB buffer:
`n, err := ffmpegStdout.Read(buf)`. A `ReadEv` records one iteration as the
handler observes it: the bytes returned (`chunk`), the read error if any
(`ReadErr.eof` is io.EOF, `ReadErr.other` any other read error), and
whether the `w.Write` of that chunk would succeed (`writeOk`; it is
consulted only when the chunk is nonempty, since the write only happens
under `n > 0`). The loop functions below are the three distinct relay-loop
variants in the repository; each returns the ordered output events (writes
and flushes), the outcome, and whether each child process was killed by the
loop itself. An input list exhausted without a read error corresponds to an
observation cut short; the theorems always place a terminating event in the
list.
-/

inductive ReadErr where
  | eof
  | other
deriving DecidableEq

structure ReadEv where
  chunk : List Nat
  err : Option ReadErr
  writeOk : Bool
deriving DecidableEq

inductive OutEv where
  | wrote (chunk : List Nat)
  | flushed
deriving DecidableEq

inductive RelayOutcome where
  | completed (bytes : Option Nat)
  | clientDisconnected (bytes : Option Nat)
  | upstreamFailed
deriving DecidableEq

structure RelayResult where
  out : List OutEv
  outcome : RelayOutcome
  killedExtractor : Bool
  killedTranscoder : Bool
deriving DecidableEq

/-- The relay loop of main.go (lines 95-112), identical in main_simple.go
and in the second file of part_000: on a nonempty read the chunk is written
and flushed, a failed write kills both processes and returns, and any read
error — io.EOF or not — merely breaks the loop, after which the handler
waits on both processes and finishes normally. No byte count is kept. -/
def relayLoopMainGo (evs : List ReadEv) (acc : List OutEv) : RelayResult :=
  match evs with
  | [] => ⟨acc.reverse, RelayOutcome.completed none, false, false⟩
  | ev :: rest =>
    if ev.chunk.isEmpty then
      match ev.err with
      | some _ => ⟨acc.reverse, RelayOutcome.completed none, false, false⟩
      | none => relayLoopMainGo rest acc
    else
      if ev.writeOk then
        let acc2 := OutEv.flushed :: OutEv.wrote ev.chunk :: acc
        match ev.err with
        | some _ => ⟨acc2.reverse, RelayOutcome.completed none, false, false⟩
        | none => relayLoopMainGo rest acc2
      else
        ⟨acc.reverse, RelayOutcome.clientDisconnected none, true, true⟩

/-- The relay loop of the first file of part_000 (lines 159-183): the same
shape, but `total += n` runs before the write, a failed write logs the
total, kills both processes, and returns, and the completion log reports
the total. -/
def relayLoopPart0 (evs : List ReadEv) (acc : List OutEv) (total : Nat) : RelayResult :=
  match evs with
  | [] => ⟨acc.reverse, RelayOutcome.completed (some total), false, false⟩
  | ev :: rest =>
    if ev.chunk.isEmpty then
      match ev.err with
      | some _ => ⟨acc.reverse, RelayOutcome.completed (some total), false, false⟩
      | none => relayLoopPart0 rest acc total
    else
      if ev.writeOk then
        let acc2 := OutEv.flushed :: OutEv.wrote ev.chunk :: acc
        match ev.err with
        | some _ => ⟨acc2.reverse, RelayOutcome.completed (some (total + ev.chunk.length)),
            false, false⟩
        | none => relayLoopPart0 rest acc2 (total + ev.chunk.length)
      else
        ⟨acc.reverse, RelayOutcome.clientDisconnected (some (total + ev.chunk.length)),
          true, true⟩

/-- The relay loop of StreamFromURL in the streamer package (part_001,
lines 76-99): a failed write returns the client-disconnected error (both
processes are then killed through the cancelled context, not by the loop);
io.EOF breaks the loop and the function returns nil; any other read error
returns the transcoder-read error. -/
def streamFromURLRelay (evs : List ReadEv) (acc : List OutEv) : RelayResult :=
  match evs with
  | [] => ⟨acc.reverse, RelayOutcome.completed none, false, false⟩
  | ev :: rest =>
    if ev.chunk.isEmpty then
      match ev.err with
      | some ReadErr.eof => ⟨acc.reverse, RelayOutcome.completed none, false, false⟩
      | some ReadErr.other => ⟨acc.reverse, RelayOutcome.upstreamFailed, false, false⟩
      | none => streamFromURLRelay rest acc
    else
      if ev.writeOk then
        let acc2 := OutEv.flushed :: OutEv.wrote ev.chunk :: acc
        match ev.err with
        | some ReadErr.eof => ⟨acc2.reverse, RelayOutcome.completed none, false, false⟩
        | some ReadErr.other => ⟨acc2.reverse, RelayOutcome.upstreamFailed, false, false⟩
        | none => streamFromURLRelay rest acc2
      else
        ⟨acc.reverse, RelayOutcome.clientDisconnected none, false, false⟩

/-- A read event the loop passes through without stopping: no read error,
and when the chunk is nonempty its write succeeds. -/
def cleanEv (e : ReadEv) : Bool :=
  e.err.isNone && (e.chunk.isEmpty || e.writeOk)

/-- The output accumulated while passing through one read event. -/
def pushOut (acc : List OutEv) (e : ReadEv) : List OutEv :=
  if e.chunk.isEmpty then acc else OutEv.flushed :: OutEv.wrote e.chunk :: acc

/-- The output accumulated while passing through a list of read events. -/
def outAcc (pre : List ReadEv) (acc : List OutEv) : List OutEv :=
  pre.foldl pushOut acc

/-- The byte total accumulated while passing through one read event. -/
def addBytes (t : Nat) (e : ReadEv) : Nat :=
  if e.chunk.isEmpty then t else t + e.chunk.length

/-- The byte total accumulated while passing through a list of read
events. -/
def totalAcc (pre : List ReadEv) (t : Nat) : Nat :=
  pre.foldl addBytes t

theorem relayLoopMainGo_clean_cons (e : ReadEv) (evs : List ReadEv) (acc : List OutEv)
    (he : cleanEv e = true) :
    relayLoopMainGo (e :: evs) acc = relayLoopMainGo evs (pushOut acc e) := by
  simp only [cleanEv, Bool.and_eq_true, Option.isNone_iff_eq_none, Bool.or_eq_true] at he
  obtain ⟨hnone, hok⟩ := he
  by_cases hempty : e.chunk.isEmpty
  · simp [relayLoopMainGo, hempty, hnone, pushOut]
  · have hwrite : e.writeOk = true := by
      rcases hok with h1 | h1
      · exact absurd h1 hempty
      · exact h1
    simp [relayLoopMainGo, hempty, hnone, hwrite, pushOut]

theorem relayLoopPart0_clean_cons (e : ReadEv) (evs : List ReadEv) (acc : List OutEv) (t : Nat)
    (he : cleanEv e = true) :
    relayLoopPart0 (e :: evs) acc t = relayLoopPart0 evs (pushOut acc e) (addBytes t e) := by
  simp only [cleanEv, Bool.and_eq_true, Option.isNone_iff_eq_none, Bool.or_eq_true] at he
  obtain ⟨hnone, hok⟩ := he
  by_cases hempty : e.chunk.isEmpty
  · simp [relayLoopPart0, hempty, hnone, pushOut, addBytes]
  · have hwrite : e.writeOk = true := by
      rcases hok with h1 | h1
      · exact absurd h1 hempty
      · exact h1
    simp [relayLoopPart0, hempty, hnone, hwrite, pushOut, addBytes]

theorem streamFromURLRelay_clean_cons (e : ReadEv) (evs : List ReadEv) (acc : List OutEv)
    (he : cleanEv e = true) :
    streamFromURLRelay (e :: evs) acc = streamFromURLRelay evs (pushOut acc e) := by
  simp only [cleanEv, Bool.and_eq_true, Option.isNone_iff_eq_none, Bool.or_eq_true] at he
  obtain ⟨hnone, hok⟩ := he
  by_cases hempty : e.chunk.isEmpty
  · simp [streamFromURLRelay, hempty, hnone, pushOut]
  · have hwrite : e.writeOk = true := by
      rcases hok with h1 | h1
      · exact absurd h1 hempty
      · exact h1
    simp [streamFromURLRelay, hempty, hnone, hwrite, pushOut]

theorem relayLoopMainGo_clean_skip (pre evs : List ReadEv) (acc : List OutEv)
    (h : ∀ e ∈ pre, cleanEv e = true) :
    relayLoopMainGo (pre ++ evs) acc = relayLoopMainGo evs (outAcc pre acc) := by
  induction pre generalizing acc with
  | nil => simp [outAcc]
  | cons e pre ih =>
    rw [List.cons_append,
      relayLoopMainGo_clean_cons e _ acc (h e (List.mem_cons_self e pre)),
      ih _ (fun x hx => h x (List.mem_cons_of_mem e hx))]
    rfl

theorem relayLoopPart0_clean_skip (pre evs : List ReadEv) (acc : List OutEv) (t : Nat)
    (h : ∀ e ∈ pre, cleanEv e = true) :
    relayLoopPart0 (pre ++ evs) acc t = relayLoopPart0 evs (outAcc pre acc) (totalAcc pre t) := by
  induction pre generalizing acc t with
  | nil => simp [outAcc, totalAcc]
  | cons e pre ih =>
    rw [List.cons_append,
      relayLoopPart0_clean_cons e _ acc t (h e (List.mem_cons_self e pre)),
      ih _ _ (fun x hx => h x (List.mem_cons_of_mem e hx))]
    rfl

theorem streamFromURLRelay_clean_skip (pre evs : List ReadEv) (acc : List OutEv)
    (h : ∀ e ∈ pre, cleanEv e = true) :
    streamFromURLRelay (pre ++ evs) acc = streamFromURLRelay evs (outAcc pre acc) := by
  induction pre generalizing acc with
  | nil => simp [outAcc]
  | cons e pre ih =>
    rw [List.cons_append,
      streamFromURLRelay_clean_cons e _ acc (h e (List.mem_cons_self e pre)),
      ih _ (fun x hx => h x (List.mem_cons_of_mem e hx))]
    rfl

/-- C2: in the relay loop of part_000, when the write of a nonempty chunk
fails after the loop has relayed N > 0 bytes — N being the total the loop
tracks, the bytes read from the transcoder and handed to the outbound
writer, the failing chunk included — the loop stops at once (the events
after the failure are never consumed, so the result does not depend on
`post`), kills both child processes, and reports ClientDisconnected with
byte count exactly N. -/
theorem C2_write_failure_client_disconnected (pre post : List ReadEv) (ev : ReadEv)
    (hclean : ∀ e ∈ pre, cleanEv e = true)
    (hchunk : ev.chunk.isEmpty = false) (hw : ev.writeOk = false) :
    (relayLoopPart0 (pre ++ ev :: post) [] 0).outcome
        = RelayOutcome.clientDisconnected (some (totalAcc pre 0 + ev.chunk.length))
    ∧ (relayLoopPart0 (pre ++ ev :: post) [] 0).killedExtractor = true
    ∧ (relayLoopPart0 (pre ++ ev :: post) [] 0).killedTranscoder = true
    ∧ (relayLoopPart0 (pre ++ ev :: post) [] 0).out = (outAcc pre []).reverse
    ∧ 0 < totalAcc pre 0 + ev.chunk.length := by
  have hres : relayLoopPart0 (pre ++ ev :: post) [] 0 =
      ⟨(outAcc pre []).reverse,
        RelayOutcome.clientDisconnected (some (totalAcc pre 0 + ev.chunk.length)),
        true, true⟩ := by
    rw [relayLoopPart0_clean_skip pre (ev :: post) [] 0 hclean]
    simp [relayLoopPart0, hchunk, hw]
  rw [hres]
  have hne : ev.chunk ≠ [] := by
    intro hnil
    rw [hnil] at hchunk
    simp at hchunk
  have hlen : 0 < ev.chunk.length := List.length_pos.mpr hne
  exact ⟨rfl, rfl, rfl, rfl, by omega⟩

/-- Witness for C2: one clean 3-byte chunk is relayed, then the write of a
2-byte chunk fails; the loop reports ClientDisconnected with byte count 5,
kills both processes, and only the first chunk appears in the output. -/
theorem C2_write_failure_client_disconnected_witness :
    (relayLoopPart0 [⟨[1, 2, 3], none, true⟩, ⟨[4, 5], none, false⟩] [] 0).outcome
        = RelayOutcome.clientDisconnected (some 5)
    ∧ (relayLoopPart0 [⟨[1, 2, 3], none, true⟩, ⟨[4, 5], none, false⟩] [] 0).killedExtractor = true
    ∧ (relayLoopPart0 [⟨[1, 2, 3], none, true⟩, ⟨[4, 5], none, false⟩] [] 0).killedTranscoder = true
    ∧ (relayLoopPart0 [⟨[1, 2, 3], none, true⟩, ⟨[4, 5], none, false⟩] [] 0).out
        = [OutEv.wrote [1, 2, 3], OutEv.flushed] := by
  have h := C2_write_failure_client_disconnected [⟨[1, 2, 3], none, true⟩] []
    ⟨[4, 5], none, false⟩ (by decide) (by decide) (by decide)
  revert h
  decide

/-- C5 counterexample: in the relay loop of main.go a read error that is
not end-of-stream does not yield an upstream-failure outcome; the loop
merely breaks and the handler finishes on the Completed path, exactly as it
does for clean end-of-stream. The two cases are therefore not distinguished
in that variant, contrary to the claim. -/
theorem C5_main_loop_no_distinction :
    (relayLoopMainGo [⟨[], some ReadErr.other, true⟩] []).outcome
        = RelayOutcome.completed none
    ∧ (relayLoopMainGo [⟨[], some ReadErr.other, true⟩] []).outcome
        ≠ RelayOutcome.upstreamFailed
    ∧ (relayLoopMainGo [⟨[], some ReadErr.eof, true⟩] []).outcome
        = (relayLoopMainGo [⟨[], some ReadErr.other, true⟩] []).outcome := by
  decide

/-- C5 as amended: in StreamFromURL (part_001) the two cases are
distinguished — a read error other than io.EOF returns the transcoder-read
error (UpstreamFailed) while io.EOF leaves the loop and the function
returns nil (Completed); in the main.go handler variant any read error,
EOF or not, ends the loop on the Completed path with no distinction. -/
theorem C5_streamer_distinguishes_read_errors (pre post : List ReadEv) (ev : ReadEv)
    (hclean : ∀ e ∈ pre, cleanEv e = true)
    (hok : ev.chunk.isEmpty = true ∨ ev.writeOk = true) :
    (ev.err = some ReadErr.other →
      (streamFromURLRelay (pre ++ ev :: post) []).outcome = RelayOutcome.upstreamFailed)
    ∧ (ev.err = some ReadErr.eof →
      (streamFromURLRelay (pre ++ ev :: post) []).outcome = RelayOutcome.completed none)
    ∧ (∀ er : ReadErr, ev.err = some er →
      (relayLoopMainGo (pre ++ ev :: post) []).outcome = RelayOutcome.completed none) := by
  refine ⟨?_, ?_, ?_⟩
  · intro herr
    rw [streamFromURLRelay_clean_skip pre (ev :: post) [] hclean]
    by_cases hempty : ev.chunk.isEmpty
    · simp [streamFromURLRelay, hempty, herr]
    · have hw : ev.writeOk = true := by
        rcases hok with h1 | h1
        · exact absurd h1 hempty
        · exact h1
      simp [streamFromURLRelay, hempty, hw, herr]
  · intro herr
    rw [streamFromURLRelay_clean_skip pre (ev :: post) [] hclean]
    by_cases hempty : ev.chunk.isEmpty
    · simp [streamFromURLRelay, hempty, herr]
    · have hw : ev.writeOk = true := by
        rcases hok with h1 | h1
        · exact absurd h1 hempty
        · exact h1
      simp [streamFromURLRelay, hempty, hw, herr]
  · intro er herr
    rw [relayLoopMainGo_clean_skip pre (ev :: post) [] hclean]
    by_cases hempty : ev.chunk.isEmpty
    · simp [relayLoopMainGo, hempty, herr]
    · have hw : ev.writeOk = true := by
        rcases hok with h1 | h1
        · exact absurd h1 hempty
        · exact h1
      simp [relayLoopMainGo, hempty, hw, herr]

/-- Witness for the amended C5: after one clean chunk, a transcoder read
error yields UpstreamFailed in StreamFromURL, io.EOF yields Completed, and
the main.go loop yields Completed for the non-EOF error as well. -/
theorem C5_streamer_distinguishes_read_errors_witness :
    (streamFromURLRelay [⟨[9], none, true⟩, ⟨[], some ReadErr.other, true⟩] []).outcome
        = RelayOutcome.upstreamFailed
    ∧ (streamFromURLRelay [⟨[9], none, true⟩, ⟨[], some ReadErr.eof, true⟩] []).outcome
        = RelayOutcome.completed none
    ∧ (relayLoopMainGo [⟨[9], none, true⟩, ⟨[], some ReadErr.other, true⟩] []).outcome
        = RelayOutcome.completed none := by
  have h1 := (C5_streamer_distinguishes_read_errors [⟨[9], none, true⟩] []
    ⟨[], some ReadErr.other, true⟩ (by decide) (Or.inl rfl)).1 rfl
  have h2 := (C5_streamer_distinguishes_read_errors [⟨[9], none, true⟩] []
    ⟨[], some ReadErr.eof, true⟩ (by decide) (Or.inl rfl)).2.1 rfl
  have h3 := (C5_streamer_distinguishes_read_errors [⟨[9], none, true⟩] []
    ⟨[], some ReadErr.other, true⟩ (by decide) (Or.inl rfl)).2.2 ReadErr.other rfl
  exact ⟨h1, h2, h3⟩

/-- C9: when a read returns a nonempty chunk together with an error —
io.EOF included — the chunk is written to the outbound stream and flushed
before the loop exits, in both the main.go loop and StreamFromURL: the
output trace ends with that write and its flush. The final partial chunk
is never dropped. -/
theorem C9_final_partial_chunk_not_dropped (pre post : List ReadEv) (ev : ReadEv) (er : ReadErr)
    (hclean : ∀ e ∈ pre, cleanEv e = true)
    (hchunk : ev.chunk.isEmpty = false) (hw : ev.writeOk = true)
    (herr : ev.err = some er) :
    (relayLoopMainGo (pre ++ ev :: post) []).out
        = (outAcc pre []).reverse ++ [OutEv.wrote ev.chunk, OutEv.flushed]
    ∧ (streamFromURLRelay (pre ++ ev :: post) []).out
        = (outAcc pre []).reverse ++ [OutEv.wrote ev.chunk, OutEv.flushed] := by
  constructor
  · rw [relayLoopMainGo_clean_skip pre (ev :: post) [] hclean]
    simp [relayLoopMainGo, hchunk, hw, herr]
  · rw [streamFromURLRelay_clean_skip pre (ev :: post) [] hclean]
    cases er <;> simp [streamFromURLRelay, hchunk, hw, herr]

/-- Witness for C9: one clean chunk, then a final chunk returned together
with io.EOF; the final chunk is written and flushed as the last two output
events of both loops. -/
theorem C9_final_partial_chunk_not_dropped_witness :
    (relayLoopMainGo [⟨[1, 2], none, true⟩, ⟨[7], some ReadErr.eof, true⟩] []).out
        = [OutEv.wrote [1, 2], OutEv.flushed, OutEv.wrote [7], OutEv.flushed]
    ∧ (streamFromURLRelay [⟨[1, 2], none, true⟩, ⟨[7], some ReadErr.eof, true⟩] []).out
        = [OutEv.wrote [1, 2], OutEv.flushed, OutEv.wrote [7], OutEv.flushed] := by
  have h := C9_final_partial_chunk_not_dropped [⟨[1, 2], none, true⟩] []
    ⟨[7], some ReadErr.eof, true⟩ ReadErr.eof (by decide) (by decide) (by decide) (by decide)
  revert h
  decide

/-! ## The request context and forced termination

main.go line 32 creates `ctx, cancel := context.WithTimeout(r.Context(),
45*time.Second)` and passes `ctx` to `exec.CommandContext` for both child
processes; `exec.CommandContext` kills its process when the context
becomes done, and the watcher goroutine at lines 87-91 kills both
processes when `r.Context()` is done. The context is therefore done — and
the process pair is terminated — as soon as either the client disconnects
or 45 seconds have elapsed since the request began, regardless of whether
streaming is underway. The model measures time in whole seconds from
request start. -/

def handlerTimeoutSeconds : Nat := 45

/-- Whether the request context of main.go is done by time `t`:
the 45-second timeout has elapsed or the client has disconnected. -/
def ctxDoneBy (clientDisconnectAt : Option Nat) (t : Nat) : Bool :=
  (if handlerTimeoutSeconds ≤ t then true else false) ||
  (match clientDisconnectAt with
   | some d => if d ≤ t then true else false
   | none => false)

/-- Whether both child processes have been signalled to terminate by time
`t`. CommandContext ties the kill to the context alone, so the number of
bytes already relayed is not consulted. -/
def processPairTerminatedBy (clientDisconnectAt : Option Nat)
    (_bytesRelayed : Nat) (t : Nat) : Bool :=
  ctxDoneBy clientDisconnectAt t

/-- C3 evaluated at the failing input: with the client still connected
(no disconnect ever), a stream that has already relayed a megabyte is
nonetheless terminated at 46 seconds, because the 45-second context of
main.go spans the whole request, not only pipeline setup; at 44 seconds
the pair is still running. The claim that no deadline applies once
streaming has started does not hold of the code. -/
theorem C3_deadline_kills_streaming_pair :
    processPairTerminatedBy none 1048576 46 = true
    ∧ processPairTerminatedBy none 1048576 44 = false
    ∧ processPairTerminatedBy (some 10) 1048576 10 = true := by
  decide

/-! ## Kill attempts per process

main.go has two kill sites after both processes are running: the watcher
goroutine (lines 87-91), which runs its two `Process.Kill` calls once when
the context becomes done — the Done channel closes at most once even when
both the disconnect and the deadline trigger fire — and the write-failure
branch of the relay loop (lines 98-103), which kills both processes again
before returning. The error a second `Kill` of an already-finished process
returns is discarded by the code. -/

/-- The kill calls the watcher goroutine issues: both processes, once,
when the context fires; the two cancellation triggers share the one Done
channel. -/
def watcherKillList (ctxFires : Bool) : List Proc :=
  if ctxFires then [Proc.extractor, Proc.transcoder] else []

/-- The kill calls the write-failure branch of the relay loop issues. -/
def writeFailKillList (writeFailed : Bool) : List Proc :=
  if writeFailed then [Proc.extractor, Proc.transcoder] else []

/-- Kill attempts issued for process `p` during one request in which the
client disconnect trigger, the deadline trigger, and the relay-loop write
failure fire as indicated. -/
def killAttempts (disconnect deadlineElapsed writeFailed : Bool) (p : Proc) : Nat :=
  (watcherKillList (disconnect || deadlineElapsed) ++ writeFailKillList writeFailed).count p

/-- C4 counterexample: when the cancellation watcher fires (disconnect
detected, deadline also elapsed) and the relay loop write-failure path
also reacts, each child process receives two kill attempts, not exactly
one. -/
theorem C4_double_kill_attempt :
    killAttempts true true true Proc.extractor = 2
    ∧ killAttempts true true true Proc.transcoder = 2
    ∧ killAttempts true true true Proc.extractor ≠ 1 := by
  decide

/-- C4 as amended: the two cancellation triggers share one Done channel,
so the watcher issues at most one kill attempt per process no matter how
many triggers fire; without a write failure each process receives at most
one attempt in total, and with one at most two — the duplicate `Kill`
returns an already-finished error that the code discards, so no
double-kill error surfaces. The exact count is one per firing site. -/
theorem C4_one_kill_per_site (d dl wf : Bool) (p : Proc) :
    (watcherKillList (d || dl)).count p ≤ 1
    ∧ killAttempts d dl false p ≤ 1
    ∧ killAttempts d dl wf p ≤ 2
    ∧ killAttempts d dl wf p =
        (if d || dl then 1 else 0) + (if wf then 1 else 0) := by
  cases d <;> cases dl <;> cases wf <;> cases p <;> decide

/-- C8 counterexample: with a valid URL, when ffmpeg fails to start the
handler responds 500 (http.StatusInternalServerError, the "Encoding
failed" branch of main.go), which is neither 502 nor 503; the claim that
setup failures yield 502 or 503 does not hold. -/
theorem C8_setup_failure_status_counterexample :
    respondedStatus (streamHandlerSetup "https://youtu.be/abc123" envTranscoderStartFails)
        = some 500
    ∧ respondedStatus (streamHandlerSetup "https://youtu.be/abc123" envTranscoderStartFails)
        ≠ some 502
    ∧ respondedStatus (streamHandlerSetup "https://youtu.be/abc123" envTranscoderStartFails)
        ≠ some 503 := by
  decide

/-- C8 as amended: a missing, malformed, or disallowed URL yields status
400; with a valid URL, a yt-dlp pipe failure yields 500, a yt-dlp start
failure 503, an ffmpeg pipe failure 500, an ffmpeg start failure 500; and
when every setup step succeeds no error status is sent — the handler
enters the relay loop with Content-Type audio/mpeg, Cache-Control
no-cache, and Connection keep-alive set, the first body write committing
status 200. -/
theorem C8_response_statuses (u : String) (env : SetupEnv) :
    (isYouTubeURL u = false → streamHandlerSetup u env = [Ev.httpError 400])
    ∧ (isYouTubeURL u = true →
        (env.ytdlpPipeOk = false → respondedStatus (streamHandlerSetup u env) = some 500)
        ∧ (env.ytdlpPipeOk = true → env.ytdlpStartOk = false →
            respondedStatus (streamHandlerSetup u env) = some 503)
        ∧ (env.ytdlpPipeOk = true → env.ytdlpStartOk = true → env.ffmpegPipeOk = false →
            respondedStatus (streamHandlerSetup u env) = some 500)
        ∧ (env.ytdlpPipeOk = true → env.ytdlpStartOk = true → env.ffmpegPipeOk = true →
            env.ffmpegStartOk = false →
            respondedStatus (streamHandlerSetup u env) = some 500)
        ∧ (env = envAllOk →
            respondedStatus (streamHandlerSetup u env) = none
            ∧ (streamHandlerSetup u env).contains Ev.streamBegun = true
            ∧ (streamHandlerSetup u env).contains
                (Ev.headerSet "Content-Type" "audio/mpeg") = true
            ∧ (streamHandlerSetup u env).contains
                (Ev.headerSet "Cache-Control" "no-cache") = true
            ∧ (streamHandlerSetup u env).contains
                (Ev.headerSet "Connection" "keep-alive") = true)) := by
  constructor
  · intro hv
    by_cases hu : u = ""
    · subst hu
      simp [streamHandlerSetup]
    · have hu' : (u == "") = false := by simpa using hu
      simp [streamHandlerSetup, hu', hv]
  · intro hv
    have hu' : (u == "") = false := by
      rcases eq_or_ne u "" with h | h
      · subst h
        exact absurd hv (by decide)
      · simpa using h
    obtain ⟨p1, s1, p2, s2⟩ := env
    refine ⟨?_, ?_, ?_, ?_, ?_⟩
    · intro h1
      subst h1
      simp [streamHandlerSetup, hu', hv, respondedStatus]
    · intro h1 h2
      subst h1
      subst h2
      simp [streamHandlerSetup, hu', hv, respondedStatus]
    · intro h1 h2 h3
      subst h1
      subst h2
      subst h3
      simp [streamHandlerSetup, hu', hv, respondedStatus]
    · intro h1 h2 h3 h4
      subst h1
      subst h2
      subst h3
      subst h4
      simp [streamHandlerSetup, hu', hv, respondedStatus]
    · intro he
      simp only [envAllOk, SetupEnv.mk.injEq] at he
      obtain ⟨e1, e2, e3, e4⟩ := he
      subst e1
      subst e2
      subst e3
      subst e4
      have htrace : streamHandlerSetup u ⟨true, true, true, true⟩ =
          [Ev.headerSet "Content-Type" "audio/mpeg",
           Ev.headerSet "Cache-Control" "no-cache",
           Ev.headerSet "Connection" "keep-alive",
           Ev.started Proc.extractor, Ev.started Proc.transcoder, Ev.streamBegun] := by
        simp [streamHandlerSetup, hu', hv]
      rw [htrace]
      decide

/-- Witness for the amended C8 at concrete inputs: a decoy URL answers
400; a yt-dlp start failure answers 503; with everything succeeding no
error status is sent and the stream begins. -/
theorem C8_response_statuses_witness :
    streamHandlerSetup "https://evil.example/abc123" envAllOk = [Ev.httpError 400]
    ∧ respondedStatus (streamHandlerSetup "https://youtu.be/abc123" ⟨true, false, true, true⟩)
        = some 503
    ∧ respondedStatus (streamHandlerSetup "https://youtu.be/abc123" envAllOk) = none
    ∧ (streamHandlerSetup "https://youtu.be/abc123" envAllOk).contains Ev.streamBegun = true := by
  have h1 := (C8_response_statuses "https://evil.example/abc123" envAllOk).1 (by decide)
  have h2 := ((C8_response_statuses "https://youtu.be/abc123"
    ⟨true, false, true, true⟩).2 (by decide)).2.1 rfl rfl
  have h3 := ((C8_response_statuses "https://youtu.be/abc123" envAllOk).2 (by decide)).2.2.2.2 rfl
  exact ⟨h1, h2, h3.1, h3.2.1⟩

/-! ## Argument lists built for the child processes

The repository builds its extractor and transcoder argument lists in five
places. The three of interest here: main.go lines 35-52 (the two-stage
pipeline with fixed arguments and no credentials support; main_simple.go
and part_001 build the same lists), the first file of part_000 lines 86-108
(the two-stage pipeline with an optional `--cookies` flag), and main2.go
lines 56-71 (a single-stage pipeline with an optional `--cookies` flag and
no transcoder at all). -/

/-- yt-dlp arguments of main.go lines 35-41. -/
def ytdlpArgsMain (vidURL : String) : List String :=
  ["-f", "bestaudio[ext=m4a]/bestaudio", "-o", "-", "--no-warnings", "--quiet", vidURL]

/-- ffmpeg arguments of main.go lines 43-52. -/
def ffmpegArgsMain : List String :=
  ["-hide_banner", "-loglevel", "error", "-i", "pipe:0", "-f", "mp3",
   "-ac", "2", "-ar", "44100", "-b:a", "128k", "-vn", "pipe:1"]

/-- yt-dlp arguments of part_000 lines 86-95: `--cookies` is appended
exactly when a cookies path is configured, and the URL comes last. -/
def ytdlpArgsPart0 (cookiesPath vidURL : String) : List String :=
  ["-f", "worst", "-o", "-", "--no-warnings"] ++
  (if cookiesPath == "" then [] else ["--cookies", cookiesPath]) ++ [vidURL]

/-- ffmpeg arguments of part_000 lines 99-108. -/
def ffmpegArgsPart0 : List String :=
  ["-i", "pipe:0", "-vn", "-f", "mp3", "-ac", "2", "-ar", "44100",
   "-b:a", "128k", "-loglevel", "warning", "pipe:1"]

/-- yt-dlp arguments of main2.go lines 56-71 (single-stage variant). -/
def ytdlpArgsMain2 (cookiesPath vidURL : String) : List String :=
  ["--extractor-args", "youtube:player_client=web,ios,android;include_live_dash",
   "--compat-options", "no-youtube-unavailable-videos",
   "-f", "best[ext=mp4][acodec~=\x27mp4a\x27]/best[ext=mp4]/best",
   "--extract-audio", "--audio-format", "mp3", "--audio-quality", "0",
   "-o", "-", "--quiet", "--no-warnings"] ++
  (if cookiesPath == "" then [] else ["--cookies", cookiesPath]) ++ [vidURL]

/-- Whether `flag` occurs immediately followed by `val`. -/
def hasFlagPair (flag val : String) : List String → Bool
  | [] => false
  | [_] => false
  | a :: b :: rest => (a == flag && b == val) || hasFlagPair flag val (b :: rest)

/-- The compact audio-only format selector the spec describes (the one
main.go passes). -/
def specCompactAudioSelector : String := "bestaudio[ext=m4a]/bestaudio"

/-- The property claim C7 asserts of a built extractor argument list,
written from the words of the spec for comparison with the lists the code
builds: a format-selection flag for the compact audio container, an
output-to-stdout directive, quiet and no-warning flags, a credentials flag
exactly when one is configured, and the validated URL last. -/
def claimedExtractorArgsOK (args : List String) (cookiesConfigured : Bool)
    (url : String) : Bool :=
  hasFlagPair "-f" specCompactAudioSelector args &&
  hasFlagPair "-o" "-" args &&
  args.contains "--quiet" &&
  args.contains "--no-warnings" &&
  (args.contains "--cookies" == cookiesConfigured) &&
  (args.getLast? == some url)

/-- C7 counterexample: no variant that supports a configured credentials
file builds the claimed list. With a cookies path configured, part_000
selects `worst` — not a compact audio container — and passes no `--quiet`;
main2.go selects an mp4-preferring chain and, being single-stage, builds
no transcoder arguments at all. Conversely the variant whose extractor
list does match the described flags, main.go, has no credentials support. -/
theorem C7_claimed_args_refuted :
    claimedExtractorArgsOK (ytdlpArgsPart0 "cookies.txt" "https://youtu.be/abc123")
        true "https://youtu.be/abc123" = false
    ∧ claimedExtractorArgsOK (ytdlpArgsMain2 "cookies.txt" "https://youtu.be/abc123")
        true "https://youtu.be/abc123" = false
    ∧ hasFlagPair "-f" specCompactAudioSelector
        (ytdlpArgsPart0 "cookies.txt" "https://youtu.be/abc123") = false
    ∧ (ytdlpArgsPart0 "cookies.txt" "https://youtu.be/abc123").contains "--quiet" = false := by
  decide

/-- C7 as amended, per variant. main.go (and main_simple.go, part_001):
the extractor list carries the compact audio selector, output to stdout,
quiet and no-warning flags, never a credentials flag, and ends with the
URL; its transcoder list fixes 44100 Hz, 2 channels, 128 kbit per second,
strips video, and emits MP3 to stdout. part_000: the extractor list
selects `worst`, outputs to stdout, passes `--no-warnings` but no
`--quiet`, appends `--cookies` exactly when a cookies path is configured,
and ends with the URL; its transcoder list fixes the same five transcode
parameters. -/
theorem C7_built_args_by_variant (c url : String) (hv : isYouTubeURL url = true) :
    claimedExtractorArgsOK (ytdlpArgsMain url) false url = true
    ∧ hasFlagPair "-ar" "44100" ffmpegArgsMain = true
    ∧ hasFlagPair "-ac" "2" ffmpegArgsMain = true
    ∧ hasFlagPair "-b:a" "128k" ffmpegArgsMain = true
    ∧ ffmpegArgsMain.contains "-vn" = true
    ∧ hasFlagPair "-f" "mp3" ffmpegArgsMain = true
    ∧ ffmpegArgsMain.getLast? = some "pipe:1"
    ∧ hasFlagPair "-f" "worst" (ytdlpArgsPart0 c url) = true
    ∧ hasFlagPair "-o" "-" (ytdlpArgsPart0 c url) = true
    ∧ (ytdlpArgsPart0 c url).contains "--no-warnings" = true
    ∧ (ytdlpArgsPart0 "" url).contains "--quiet" = false
    ∧ ((ytdlpArgsPart0 c url).contains "--cookies" = true ↔ c ≠ "")
    ∧ (ytdlpArgsPart0 c url).getLast? = some url
    ∧ hasFlagPair "-ar" "44100" ffmpegArgsPart0 = true
    ∧ hasFlagPair "-ac" "2" ffmpegArgsPart0 = true
    ∧ hasFlagPair "-b:a" "128k" ffmpegArgsPart0 = true
    ∧ ffmpegArgsPart0.contains "-vn" = true
    ∧ hasFlagPair "-f" "mp3" ffmpegArgsPart0 = true
    ∧ ffmpegArgsPart0.getLast? = some "pipe:1" := by
  have hq : ¬("--quiet" = url) := by
    intro h
    rw [← h] at hv
    exact absurd hv (by decide)
  have hck : ¬("--cookies" = url) := by
    intro h
    rw [← h] at hv
    exact absurd hv (by decide)
  by_cases hc : c = ""
  · subst hc
    refine ⟨?_, by decide, by decide, by decide, by decide, by decide, by decide,
      ?_, ?_, ?_, ?_, ?_, ?_, by decide, by decide, by decide, by decide, by decide, by decide⟩
    · simp [claimedExtractorArgsOK, ytdlpArgsMain, hasFlagPair, specCompactAudioSelector,
        List.contains, hck]
    · simp [ytdlpArgsPart0, hasFlagPair]
    · simp [ytdlpArgsPart0, hasFlagPair]
    · simp [ytdlpArgsPart0, List.contains]
    · simp [ytdlpArgsPart0, List.contains, hq]
    · simp [ytdlpArgsPart0, List.contains, hck]
    · simp [ytdlpArgsPart0]
  · refine ⟨?_, by decide, by decide, by decide, by decide, by decide, by decide,
      ?_, ?_, ?_, ?_, ?_, ?_, by decide, by decide, by decide, by decide, by decide, by decide⟩
    · simp [claimedExtractorArgsOK, ytdlpArgsMain, hasFlagPair, specCompactAudioSelector,
        List.contains, hck]
    · simp [ytdlpArgsPart0, hasFlagPair, hc]
    · simp [ytdlpArgsPart0, hasFlagPair, hc]
    · simp [ytdlpArgsPart0, List.contains, hc]
    · simp [ytdlpArgsPart0, List.contains, hq]
    · simp [ytdlpArgsPart0, List.contains, hc]
    · simp [ytdlpArgsPart0, hc]

/-- Witness for the amended C7 at a concrete URL and cookies path. -/
theorem C7_built_args_by_variant_witness :
    claimedExtractorArgsOK (ytdlpArgsMain "https://youtu.be/abc123")
        false "https://youtu.be/abc123" = true
    ∧ (ytdlpArgsPart0 "cookies.txt" "https://youtu.be/abc123").contains "--cookies" = true
    ∧ (ytdlpArgsPart0 "" "https://youtu.be/abc123").contains "--cookies" = false
    ∧ (ytdlpArgsPart0 "cookies.txt" "https://youtu.be/abc123").getLast?
        = some "https://youtu.be/abc123"
    ∧ hasFlagPair "-ar" "44100" ffmpegArgsPart0 = true := by
  have h := C7_built_args_by_variant "cookies.txt" "https://youtu.be/abc123" (by decide)
  refine ⟨h.1, ?_, by decide, ?_, by decide⟩
  · exact h.2.2.2.2.2.2.2.2.2.2.2.1.mpr (by decide)
  · exact h.2.2.2.2.2.2.2.2.2.2.2.2.1
